import Mathlib

/-!
Verification of the Brevo use-case client (`brevo_all_use_cases.py`).

The source is a thin synchronous HTTP client: every use-case function builds a
JSON payload, obtains headers from `get_headers` (which fails fast on a missing
or empty API key), issues exactly one request through an `httpx` client with a
fixed timeout, parses the body as JSON when non-empty, prints a summary and
returns the parsed data on success or `None` on a non-2xx status.  The
orchestrator `run_all` executes a fixed catalogue of these steps, each wrapped
in `_safe_run` (try/except that logs and continues).

Shallow embedding conventions:
* `Json` models Python dict/list/str/int/bool/None values; a response body is
  `Option Json`, where `none` models an empty byte content (Python
  `response.content` falsy) and `some j` a non-empty body that parses to `j`.
* The network is a `Transport`: a function from the request the client would
  send to either a response or a raised exception (transport faults, or any
  exception a fake executor injects).
* Each use-case function returns a `StepOut`: the list of requests actually
  issued by that invocation (for "zero network calls" / "exactly one call"
  properties) together with `Except PyErr (Result × Option Json)` — the
  produced (success, status, body) triple that `print_result` reports plus the
  Python-level return value (`data if response.is_success else None`), or the
  exception that propagated.
-/

namespace Brevo

/-- JSON values, the payload/response currency of every call. -/
inductive Json where
  | null : Json
  | bool : Bool → Json
  | num : Int → Json
  | str : String → Json
  | arr : List Json → Json
  | obj : List (String × Json) → Json

/-- Association-list lookup on object fields, mirroring Python `dict.get`. -/
def lookupStr : List (String × Json) → String → Option Json
  | [], _ => none
  | (k2, v) :: rest, k => if k2 = k then some v else lookupStr rest k

/-- Lookup: `j.getKey k` is Python `j.get(k)` for a dict `j` (and `None` otherwise). -/
def Json.getKey : Json → String → Option Json
  | .obj kvs, k => lookupStr kvs k
  | _, _ => none

/-- Python `k in j` for a dict `j`. -/
def Json.hasKey (j : Json) (k : String) : Bool :=
  (j.getKey k).isSome

/-- Python truthiness of a JSON value. -/
def Json.truthy : Json → Bool
  | .null => false
  | .bool b => b
  | .num n => decide (n ≠ 0)
  | .str s => decide (s ≠ "")
  | .arr l => !l.isEmpty
  | .obj l => !l.isEmpty

/-- Python `x or default` for an optional string argument. -/
def pyOr (o : Option String) (d : String) : String :=
  match o with
  | some s => if s = "" then d else s
  | none => d

/-- Python `x or default` for an optional JSON argument (falsy values fall
back to the default, e.g. `attributes or \x7b...\x7d`). -/
def pyOrJson (o : Option Json) (d : Json) : Json :=
  match o with
  | some j => if j.truthy then j else d
  | none => d

/-- Python `x or default` for an optional list argument (`tags or [...]`). -/
def pyOrList {α : Type} (o : Option (List α)) (d : List α) : List α :=
  match o with
  | some l => if l.isEmpty then d else l
  | none => d

/-- Truthiness of an optional list (Python `if emails:`): `none` and the empty
list are falsy. -/
def listTruthy {α : Type} (o : Option (List α)) : Bool :=
  match o with
  | some l => !l.isEmpty
  | none => false

/-- Truthiness of an optional string (Python `if tag:`). -/
def strTruthy (o : Option String) : Bool :=
  match o with
  | some s => decide (s ≠ "")
  | none => false

/-- Truthiness of an optional integer (Python `if days:`): `0` is falsy. -/
def intTruthy (o : Option Int) : Bool :=
  match o with
  | some i => decide (i ≠ 0)
  | none => false

/-- Whether one character list is an initial segment of another. -/
def startsWithChars : List Char → List Char → Bool
  | [], _ => true
  | _ :: _, [] => false
  | a :: as, b :: bs => a == b && startsWithChars as bs

/-- Whether the first character list occurs inside the second. -/
def hasSubChars (pat : List Char) : List Char → Bool
  | [] => startsWithChars pat []
  | c :: rest => startsWithChars pat (c :: rest) || hasSubChars pat rest

/-- Substring test, Python `pat in s` for strings. -/
def containsSub (s pat : String) : Bool :=
  hasSubChars pat.data s.data

/-- Character membership, Python `c in s` for a one-character pattern. -/
def strHasChar (s : String) (c : Char) : Bool :=
  s.data.contains c

/-- Rendering of a value inside a Python f-string (`str(x)`); `None` for a
missing value.  List/dict renderings are elided: no modelled call interpolates
them (the dynamic-email defaults are strings). -/
def pyStr : Option Json → String
  | none => "None"
  | some .null => "None"
  | some (.str s) => s
  | some (.bool true) => "True"
  | some (.bool false) => "False"
  | some (.num n) => toString n
  | some (.arr _) => "[...]"
  | some (.obj _) => "..."

/-- Exceptions the embedded code can raise or a fake transport can inject:
`ValueError` (with its message), `TypeError` (httpx rejects a non-string
header value), and arbitrary other exceptions by name and message. -/
inductive PyErr where
  | valueError : String → PyErr
  | typeError : PyErr
  | exc : String → String → PyErr

/-- HTTP method used by the client. -/
inductive Method where
  | GET : Method
  | POST : Method

/-- The request a use-case function hands to the httpx client: method, full
URL, headers, query parameters, optional JSON body, and the client timeout. -/
structure Request where
  method : Method
  url : String
  headers : List (String × String)
  query : List (String × Json)
  body : Option Json
  timeout : Nat

/-- An HTTP response: status code and body.  `content = none` models an empty
byte content (`response.content` falsy); `some j` a body that parses to `j`. -/
structure Response where
  status : Nat
  content : Option Json

/-- httpx `response.is_success`: status in the 2xx range. -/
def Response.is_success (r : Response) : Bool :=
  decide (200 ≤ r.status ∧ r.status < 300)

/-- The (success, status, body) triple of the spec's data model, as observed
by `print_result` (success flag and status) and the `data` value. -/
structure Result where
  success : Bool
  status : Nat
  body : Json

/-- The network: maps the request sent to a response, or to a raised
exception (transport fault or anything a fake executor injects). -/
def Transport : Type := Request → Except PyErr Response

/-- Result of invoking one use-case function: the requests it issued, and
either the produced `Result` paired with the Python return value
(`data if response.is_success else None`) or the exception raised. -/
structure StepOut where
  requests : List Request
  outcome : Except PyErr (Result × Option Json)

-- Configuration: module-level constants of the source.

/-- The `BASE_URL` constant. -/
def BASE_URL : String := "https://api.brevo.com"

/-- The `HTTPX_TIMEOUT` constant (15.0 seconds in the source; the integral value
in time-units). -/
def HTTPX_TIMEOUT : Nat := 15

/-- The module-level configuration read from the environment: `API_KEY`
(`none` when neither env var is set; `some ""` when set empty) and the
`DEFAULT_*` sender/recipient values. -/
structure Config where
  apiKey : Option String
  senderEmail : String
  senderName : String
  recipientEmail : String
  recipientName : String
  recipientPhone : Option String

/-- Truthiness of `DEFAULT_RECIPIENT_PHONE` (Python `if DEFAULT_RECIPIENT_PHONE:`). -/
def phoneTruthy (cfg : Config) : Bool :=
  match cfg.recipientPhone with
  | some p => decide (p ≠ "")
  | none => false

/-- The `ValueError` message `get_headers` raises when no API key is set. -/
def hdrErrMsg : String :=
  "Set BREVO_API_KEY or BREVO_WEBHOOK_SECRET in .env (get key from https://app.brevo.com/settings/keys/api)"

/-- Model of `get_headers`: the three standard headers, or a `ValueError` when the API
key is absent or empty (Python `if not API_KEY:`). -/
def get_headers (cfg : Config) : Except PyErr (List (String × String)) :=
  match cfg.apiKey with
  | none => .error (.valueError hdrErrMsg)
  | some k =>
    if k = "" then .error (.valueError hdrErrMsg)
    else .ok [("accept", "application/json"),
              ("content-type", "application/json"),
              ("api-key", k)]

/-- The request body parse `response.json() if response.content else \x7b\x7d`. -/
def parseBody (r : Response) : Json :=
  match r.content with
  | none => Json.obj []
  | some j => j

/-- The `Result` a call produces from a response. -/
def mkResult (r : Response) : Result :=
  { success := r.is_success, status := r.status, body := parseBody r }

/-- The Python return value `data if response.is_success else None`. -/
def retValue (r : Response) : Option Json :=
  if r.is_success then some (parseBody r) else none

/-- The single request a use-case function builds once headers are known. -/
def mkRequest (hs : List (String × String)) (m : Method) (u : String)
    (q : List (String × Json)) (b : Option Json) : Request :=
  { method := m, url := u, headers := hs, query := q, body := b,
    timeout := HTTPX_TIMEOUT }

/-- The request-execution pattern every use-case function funnels through:
obtain headers via `get_headers` (raising before any network I/O on a missing
key), issue exactly one call through the client, parse the body, and return
the result; transport exceptions propagate to the caller. -/
def runStep (cfg : Config) (t : Transport) (m : Method) (u : String)
    (q : List (String × Json)) (b : Option Json) : StepOut :=
  match get_headers cfg with
  | .error e => { requests := [], outcome := .error e }
  | .ok hs =>
    match t (mkRequest hs m u q b) with
    | .error e => { requests := [mkRequest hs m u q b], outcome := .error e }
    | .ok resp =>
      { requests := [mkRequest hs m u q b],
        outcome := .ok (mkResult resp, retValue resp) }

-- Use-case functions (section numbering as in the source).

/-- Model of `get_account`: GET /v3/account. -/
def get_account (cfg : Config) (t : Transport) : StepOut :=
  runStep cfg t .GET (BASE_URL ++ "/v3/account") [] none

/-- Payload of `send_transactional_email_html` (source lines 111–116). -/
def sendEmailHtmlPayload (cfg : Config) (to_email to_name subject html_content : String)
    (sender_email sender_name : Option String) : Json :=
  Json.obj [("sender", Json.obj [("name", Json.str (pyOr sender_name cfg.senderName)),
                                 ("email", Json.str (pyOr sender_email cfg.senderEmail))]),
            ("to", Json.arr [Json.obj [("email", Json.str to_email),
                                       ("name", Json.str to_name)]]),
            ("subject", Json.str subject),
            ("htmlContent", Json.str html_content)]

/-- Model of `send_transactional_email_html`: POST /v3/smtp/email. -/
def send_transactional_email_html (cfg : Config) (t : Transport)
    (to_email to_name subject html_content : String)
    (sender_email sender_name : Option String) : StepOut :=
  runStep cfg t .POST (BASE_URL ++ "/v3/smtp/email") []
    (some (sendEmailHtmlPayload cfg to_email to_name subject html_content sender_email sender_name))

/-- Model of `send_transactional_email_text`: POST /v3/smtp/email with `textContent`. -/
def send_transactional_email_text (cfg : Config) (t : Transport)
    (to_email subject text_content : String)
    (sender_email sender_name : Option String) : StepOut :=
  runStep cfg t .POST (BASE_URL ++ "/v3/smtp/email") []
    (some (Json.obj [("sender", Json.obj [("name", Json.str (pyOr sender_name cfg.senderName)),
                                          ("email", Json.str (pyOr sender_email cfg.senderEmail))]),
                     ("to", Json.arr [Json.obj [("email", Json.str to_email)]]),
                     ("subject", Json.str subject),
                     ("textContent", Json.str text_content)]))

/-- Model of `send_transactional_email_template`: POST /v3/smtp/email with a template id. -/
def send_transactional_email_template (cfg : Config) (t : Transport)
    (template_id : Int) (to_email : String) (params : Option Json) : StepOut :=
  runStep cfg t .POST (BASE_URL ++ "/v3/smtp/email") []
    (some (Json.obj [("sender", Json.obj [("name", Json.str cfg.senderName),
                                          ("email", Json.str cfg.senderEmail)]),
                     ("to", Json.arr [Json.obj [("email", Json.str to_email)]]),
                     ("templateId", Json.num template_id),
                     ("params", pyOrJson params (Json.obj []))]))

/-- Default `params` of `send_transactional_email_dynamic`. -/
def defaultDynamicParams : Json :=
  Json.obj [("trackingCode", Json.str "JD01460000300002350000"),
            ("estimatedArrival", Json.str "Tomorrow")]

/-- The f-string HTML body built by `send_transactional_email_dynamic`. -/
def dynamicHtml (params : Json) : String :=
  "<html><body><p>Your delivery is expected " ++ pyStr (params.getKey "estimatedArrival")
    ++ ". Tracking code: " ++ pyStr (params.getKey "trackingCode") ++ "</p></body></html>"

/-- Model of `send_transactional_email_dynamic`: POST /v3/smtp/email with params. -/
def send_transactional_email_dynamic (cfg : Config) (t : Transport)
    (to_email : String) (params : Option Json)
    (sender_email sender_name : Option String) : StepOut :=
  runStep cfg t .POST (BASE_URL ++ "/v3/smtp/email") []
    (some (Json.obj [("sender", Json.obj [("name", Json.str (pyOr sender_name cfg.senderName)),
                                          ("email", Json.str (pyOr sender_email cfg.senderEmail))]),
                     ("to", Json.arr [Json.obj [("email", Json.str to_email)]]),
                     ("subject", Json.str "Order Update - Dynamic Content"),
                     ("params", pyOrJson params defaultDynamicParams),
                     ("htmlContent", Json.str (dynamicHtml (pyOrJson params defaultDynamicParams)))]))

/-- Model of `send_transactional_email_with_tags`: POST /v3/smtp/email with tags. -/
def send_transactional_email_with_tags (cfg : Config) (t : Transport)
    (to_email : String) (tags : Option (List String))
    (sender_email sender_name : Option String) : StepOut :=
  runStep cfg t .POST (BASE_URL ++ "/v3/smtp/email") []
    (some (Json.obj [("sender", Json.obj [("name", Json.str (pyOr sender_name cfg.senderName)),
                                          ("email", Json.str (pyOr sender_email cfg.senderEmail))]),
                     ("to", Json.arr [Json.obj [("email", Json.str to_email)]]),
                     ("subject", Json.str "Order Confirmation (Tagged)"),
                     ("textContent", Json.str "Thank you for your order. You can track delivery via webhooks."),
                     ("tags", Json.arr ((pyOrList tags ["order_confirmation", "transactional_v1"]).map Json.str))]))

/-- Model of `send_transactional_sms`: POST /v3/transactionalSMS/send, with the `tag`
field merged only when truthy. -/
def send_transactional_sms (cfg : Config) (t : Transport)
    (recipient content sender : String) (tag : Option String) : StepOut :=
  runStep cfg t .POST (BASE_URL ++ "/v3/transactionalSMS/send") []
    (some (Json.obj ([("sender", Json.str sender),
                      ("recipient", Json.str recipient),
                      ("content", Json.str content),
                      ("type", Json.str "transactional")]
                     ++ (if strTruthy tag then [("tag", Json.str (tag.getD ""))] else []))))

/-- Model of `send_whatsapp_message_template`: POST /v3/whatsapp/sendMessage. -/
def send_whatsapp_message_template (cfg : Config) (t : Transport)
    (contact_numbers : List String) (template_id : Int) (sender_number : String) : StepOut :=
  runStep cfg t .POST (BASE_URL ++ "/v3/whatsapp/sendMessage") []
    (some (Json.obj [("contactNumbers", Json.arr (contact_numbers.map Json.str)),
                     ("templateId", Json.num template_id),
                     ("senderNumber", Json.str sender_number)]))

/-- Model of `send_whatsapp_message_text`: POST /v3/whatsapp/sendMessage. -/
def send_whatsapp_message_text (cfg : Config) (t : Transport)
    (contact_numbers : List String) (text : String) (sender_number : String) : StepOut :=
  runStep cfg t .POST (BASE_URL ++ "/v3/whatsapp/sendMessage") []
    (some (Json.obj [("contactNumbers", Json.arr (contact_numbers.map Json.str)),
                     ("text", Json.str text),
                     ("senderNumber", Json.str sender_number)]))

/-- Model of `get_whatsapp_statistics`: GET /v3/whatsapp/statistics/events with the
`days` / `startDate`+`endDate` parameter logic. -/
def get_whatsapp_statistics (cfg : Config) (t : Transport)
    (limit offset : Int) (days : Option Int) (start_date end_date : Option String) : StepOut :=
  runStep cfg t .GET (BASE_URL ++ "/v3/whatsapp/statistics/events")
    ([("limit", Json.num limit), ("offset", Json.num offset)]
      ++ (if intTruthy days then [("days", Json.num ((days.getD 0)))]
          else if strTruthy start_date && strTruthy end_date then
            [("startDate", Json.str (start_date.getD "")),
             ("endDate", Json.str (end_date.getD ""))]
          else []))
    none

/-- Default `attributes` of `create_contact`. -/
def defaultAttributes : Json :=
  Json.obj [("FIRSTNAME", Json.str "John"), ("LASTNAME", Json.str "Doe")]

/-- Model of `create_contact`: POST /v3/contacts; `listIds` merged only when the list
argument is truthy. -/
def create_contact (cfg : Config) (t : Transport) (email : String)
    (attributes : Option Json) (list_ids : Option (List Int))
    (update_enabled : Bool) : StepOut :=
  runStep cfg t .POST (BASE_URL ++ "/v3/contacts") []
    (some (Json.obj ([("email", Json.str email),
                      ("attributes", pyOrJson attributes defaultAttributes),
                      ("updateEnabled", Json.bool update_enabled)]
                     ++ (if listTruthy list_ids then
                           [("listIds", Json.arr ((list_ids.getD []).map Json.num))]
                         else []))))

/-- Model of `get_contact`: GET /v3/contacts/(identifier). -/
def get_contact (cfg : Config) (t : Transport) (identifier : String) : StepOut :=
  runStep cfg t .GET (BASE_URL ++ "/v3/contacts/" ++ identifier) [] none

/-- Model of `get_contacts_list`: GET /v3/contacts with pagination. -/
def get_contacts_list (cfg : Config) (t : Transport) (limit offset : Int) : StepOut :=
  runStep cfg t .GET (BASE_URL ++ "/v3/contacts")
    [("limit", Json.num limit), ("offset", Json.num offset)] none

/-- The payload `add_contact_to_list` assembles from its truthy arguments
(`emails` merged first, then `ids`, as in the source). -/
def addPayload (emails : Option (List String)) (ids : Option (List Int)) : List (String × Json) :=
  (if listTruthy emails then [("emails", Json.arr ((emails.getD []).map Json.str))] else [])
  ++ (if listTruthy ids then [("ids", Json.arr ((ids.getD []).map Json.num))] else [])

/-- Model of `add_contact_to_list`: POST /v3/contacts/lists/(id)/contacts/add.  If the
assembled payload stays empty a `ValueError` is raised before the client or
`get_headers` is touched. -/
def add_contact_to_list (cfg : Config) (t : Transport) (list_id : Int)
    (emails : Option (List String)) (ids : Option (List Int)) : StepOut :=
  if (addPayload emails ids).isEmpty then
    { requests := [], outcome := .error (.valueError "Provide emails or ids") }
  else
    runStep cfg t .POST (BASE_URL ++ "/v3/contacts/lists/" ++ toString list_id ++ "/contacts/add")
      [] (some (Json.obj (addPayload emails ids)))

/-- Model of `get_contact_lists`: GET /v3/contacts/lists with pagination. -/
def get_contact_lists (cfg : Config) (t : Transport) (limit offset : Int) : StepOut :=
  runStep cfg t .GET (BASE_URL ++ "/v3/contacts/lists")
    [("limit", Json.num limit), ("offset", Json.num offset)] none

/-- Model of `get_senders`: GET /v3/senders with optional ip/domain filters. -/
def get_senders (cfg : Config) (t : Transport) (ip domain : Option String) : StepOut :=
  runStep cfg t .GET (BASE_URL ++ "/v3/senders")
    ((if strTruthy ip then [("ip", Json.str (ip.getD ""))] else [])
      ++ (if strTruthy domain then [("domain", Json.str (domain.getD ""))] else []))
    none

/-- Model of `create_sender`: POST /v3/senders. -/
def create_sender (cfg : Config) (t : Transport) (name email : String)
    (ips : Option (List Json)) : StepOut :=
  runStep cfg t .POST (BASE_URL ++ "/v3/senders") []
    (some (Json.obj ([("name", Json.str name), ("email", Json.str email)]
                     ++ (if listTruthy ips then [("ips", Json.arr (ips.getD []))] else []))))

/-- Model of `get_webhooks`: GET /v3/webhooks for transactional webhooks. -/
def get_webhooks (cfg : Config) (t : Transport) : StepOut :=
  runStep cfg t .GET (BASE_URL ++ "/v3/webhooks") [("type", Json.str "transactional")] none

/-- Model of `create_webhook`: POST /v3/webhooks. -/
def create_webhook (cfg : Config) (t : Transport) (url description : String)
    (events : Option (List String)) : StepOut :=
  runStep cfg t .POST (BASE_URL ++ "/v3/webhooks") []
    (some (Json.obj [("url", Json.str url),
                     ("description", Json.str description),
                     ("events", Json.arr ((pyOrList events ["delivered", "opened", "clicked"]).map Json.str))]))

/-- Model of `get_smtp_templates`: GET /v3/smtp/templates. -/
def get_smtp_templates (cfg : Config) (t : Transport) (template_status : String) : StepOut :=
  runStep cfg t .GET (BASE_URL ++ "/v3/smtp/templates")
    [("templateStatus", Json.str template_status)] none

/-- Model of `activate_ecommerce`: POST /v3/ecommerce/activate, no body. -/
def activate_ecommerce (cfg : Config) (t : Transport) : StepOut :=
  runStep cfg t .POST (BASE_URL ++ "/v3/ecommerce/activate") [] none

/-- The event-tracking URL, on a different host than `BASE_URL`. -/
def trackUrl : String := "https://in-automate.brevo.com/api/v2/trackEvent"

/-- The request `track_event` sends: minimal headers (only content type and
the API key, no accept header) and the tracking host. -/
def trackRequest (k email event_name : String)
    (properties event_data : Option Json) : Request :=
  mkRequest [("Content-Type", "application/json"), ("api-key", k)] .POST trackUrl []
    (some (Json.obj [("email", Json.str email),
                     ("event", Json.str event_name),
                     ("properties", pyOrJson properties (Json.obj [])),
                     ("eventdata", pyOrJson event_data (Json.obj []))]))

/-- Model of `track_event`: POST to the tracking host with inline headers.  It does NOT
call `get_headers`: no credential check happens.  With `API_KEY = None` httpx
raises a `TypeError` while encoding the `None` header value, before any
network I/O; with an empty-string key the request is sent as-is. -/
def track_event (cfg : Config) (t : Transport) (email event_name : String)
    (properties event_data : Option Json) : StepOut :=
  match cfg.apiKey with
  | none => { requests := [], outcome := .error .typeError }
  | some k =>
    match t (trackRequest k email event_name properties event_data) with
    | .error e => { requests := [trackRequest k email event_name properties event_data],
                    outcome := .error e }
    | .ok resp =>
      { requests := [trackRequest k email event_name properties event_data],
        outcome := .ok (mkResult resp, retValue resp) }

/-- Model of `upsert_custom_object_records`: POST /v3/objects/(type)/batch/upsert. -/
def upsert_custom_object_records (cfg : Config) (t : Transport)
    (object_type : String) (records : List Json) : StepOut :=
  runStep cfg t .POST (BASE_URL ++ "/v3/objects/" ++ object_type ++ "/batch/upsert") []
    (some (Json.obj [("records", Json.arr records)]))

/-- Model of `get_custom_object_records`: GET /v3/objects/(type)/records. -/
def get_custom_object_records (cfg : Config) (t : Transport)
    (object_type : String) (limit : Int) (sort : String) : StepOut :=
  runStep cfg t .GET (BASE_URL ++ "/v3/objects/" ++ object_type ++ "/records")
    [("limit", Json.num limit), ("sort", Json.str sort)] none

-- The use-case runner.

/-- Model of `_get_first_sender`: fetch /v3/senders and extract the first verified
sender as an (email, name) pair.  The whole body sits in a try/except that
swallows every exception and returns `None`; the extraction mirrors the
source's truthiness checks (`data.get("senders")` on a dict, first element of
a non-empty list, `s.get("email") or ""`, the `"@" in email` test).  A
non-string truthy `name` field — which Python would pass through unchanged —
is coerced to its textual rendering here; no claim observes that field. -/
def _get_first_sender (cfg : Config) (t : Transport) : List Request × Option (String × String) :=
  match get_headers cfg with
  | .error _ => ([], none)
  | .ok hs =>
    match t (mkRequest hs .GET (BASE_URL ++ "/v3/senders") [] none) with
    | .error _ => ([mkRequest hs .GET (BASE_URL ++ "/v3/senders") [] none], none)
    | .ok r =>
      ([mkRequest hs .GET (BASE_URL ++ "/v3/senders") [] none],
       if r.is_success then
         match r.content with
         | none => none
         | some data =>
           match (match data with
                  | .obj kvs => lookupStr kvs "senders"
                  | _ => some data) with
           | some (.arr (s :: _)) =>
             (match s.getKey "email" with
              | some (.str e) =>
                if (e != "") && strHasChar e '@' then
                  some (e, match s.getKey "name" with
                           | some j => if j.truthy then
                               (match j with | .str nm => nm | _ => pyStr (some j))
                             else "Sender"
                           | none => "Sender")
                else none
              | _ => none)
           | _ => none
       else none)

/-- The env-sender fallback expression of `run_all` (line 680): the configured
sender email, unless it is a placeholder. -/
def env_sender (cfg : Config) : Option String :=
  if strHasChar cfg.senderEmail '@' && !containsSub cfg.senderEmail "example"
      && !containsSub cfg.senderEmail "yourdomain" then
    some cfg.senderEmail
  else none

/-- The sender-resolution chain of `run_all` (line 681):
`sender or (env_sender and (env_sender, DEFAULT_SENDER_NAME))`. -/
def sender_tuple (cfg : Config) (t : Transport) : Option (String × String) :=
  match (_get_first_sender cfg t).2 with
  | some s => some s
  | none =>
    match env_sender cfg with
    | some e => some (e, cfg.senderName)
    | none => none

/-- One observable event of a `run_all` execution: a catalogue step attempted
via `_safe_run` (name, requests issued, outcome — exceptions are recorded
here, having been caught, and never abort the trace), the internal sender
lookup (not a catalogue step), or a printed log line. -/
inductive Event where
  | step : String → List Request → Except PyErr (Result × Option Json) → Event
  | probe : List Request → Event
  | log : String → Event

/-- Model of `_safe_run`: run one use case under try/except — the outcome, error or
not, is recorded and execution continues with the next step. -/
def _safe_run (name : String) (out : StepOut) : Event :=
  .step name out.requests out.outcome

/-- The hint printed when SMS is reachable but no recipient phone is set. -/
def smsHintMsg : String := "SMS: Add BREVO_TEST_PHONE to .env (e.g. 919876543210) to try"

/-- The hint printed when no sender identity could be resolved. -/
def noSenderMsg : String :=
  "No sender: Create one at https://app.brevo.com/senders (or add BREVO_SENDER_EMAIL to .env)"

/-- The email section of `run_all` (lines 677–691): when destructive steps are
enabled, resolve a sender (one network lookup, recorded as a probe) and run
the four email sends only when one was found. -/
def emailBlock (cfg : Config) (t : Transport) (skip_destructive : Bool) : List Event :=
  if skip_destructive then [.log "Skipping email sends (skip_destructive=True)"]
  else
    .probe (_get_first_sender cfg t).1 ::
    (match sender_tuple cfg t with
     | some (se, sn) =>
       [_safe_run "Send Email (HTML)"
          (send_transactional_email_html cfg t cfg.recipientEmail cfg.recipientName
            "Hello from Brevo!"
            "<html><body><p>Hello,</p><p>This is a transactional email.</p></body></html>"
            (some se) (some sn)),
        _safe_run "Send Email (Text)"
          (send_transactional_email_text cfg t cfg.recipientEmail
            "Plain text email from Brevo"
            "Hello. This is a plain text transactional email." (some se) (some sn)),
        _safe_run "Send Email (Dynamic)"
          (send_transactional_email_dynamic cfg t cfg.recipientEmail none (some se) (some sn)),
        _safe_run "Send Email (Tags)"
          (send_transactional_email_with_tags cfg t cfg.recipientEmail none (some se) (some sn))]
     | none => [.log noSenderMsg])

/-- The SMS section of `run_all` (lines 693–699): send only when destructive
steps are enabled and a recipient phone is configured; otherwise print the
matching hint. -/
def smsBlock (cfg : Config) (t : Transport) (skip_destructive : Bool) : List Event :=
  if skip_destructive then [.log "Skipping SMS (skip_destructive=True)"]
  else if phoneTruthy cfg then
    [_safe_run "Send SMS"
      (send_transactional_sms cfg t (cfg.recipientPhone.getD "")
        "Hello! This is a transactional SMS from Brevo." "Brevo" none)]
  else [.log smsHintMsg]

/-- Model of `run_all`: the fixed ordered catalogue — account lookup, the gated email
and SMS sections, then the five read-only steps — each wrapped in
`_safe_run`.  The returned trace lists every attempted step with its outcome,
the sender-lookup probe, and the log lines. -/
def run_all (cfg : Config) (t : Transport) (skip_destructive : Bool) : List Event :=
  [_safe_run "Get Account" (get_account cfg t)]
  ++ emailBlock cfg t skip_destructive
  ++ smsBlock cfg t skip_destructive
  ++ [_safe_run "Get Contacts" (get_contacts_list cfg t 5 0),
      _safe_run "Get Contact Lists" (get_contact_lists cfg t 5 0),
      _safe_run "Get Senders" (get_senders cfg t none none),
      _safe_run "Get Webhooks" (get_webhooks cfg t),
      _safe_run "Get SMTP Templates" (get_smtp_templates cfg t "true")]
  ++ [.log "Skipped: eCommerce (often times out), Custom Objects (Enterprise), Track"]

-- Observations on a trace.

/-- Names of the catalogue steps attempted in a trace. -/
def stepNames (tr : List Event) : List String :=
  tr.filterMap (fun e => match e with | .step n _ _ => some n | _ => none)

/-- The requests recorded in one event. -/
def eventRequests : Event → List Request
  | .step _ rs _ => rs
  | .probe rs => rs
  | .log _ => []

/-- Every network request issued during a trace. -/
def allRequests (tr : List Event) : List Request :=
  (tr.map eventRequests).flatten

/-- The requests of a trace aimed at the SMS endpoint. -/
def smsRequests (tr : List Event) : List Request :=
  (allRequests tr).filter (fun r => r.url == BASE_URL ++ "/v3/transactionalSMS/send")

/-- The log lines of a trace. -/
def logs (tr : List Event) : List String :=
  tr.filterMap (fun e => match e with | .log s => some s | _ => none)

/-- The catalogue `run_all` attempts, as a function of the gating inputs
alone: the skip flag, whether a sender identity was resolved, and whether a
recipient phone is configured.  Step successes and failures do not appear:
they cannot influence which steps are attempted. -/
def expectedSteps (skip senderOk phone : Bool) : List String :=
  ["Get Account"]
  ++ (if skip then []
      else if senderOk then
        ["Send Email (HTML)", "Send Email (Text)", "Send Email (Dynamic)", "Send Email (Tags)"]
      else [])
  ++ (if skip then [] else if phone then ["Send SMS"] else [])
  ++ ["Get Contacts", "Get Contact Lists", "Get Senders", "Get Webhooks", "Get SMTP Templates"]

/-- Whether an outcome is a raised `ValueError`. -/
def errIsValueError : Except PyErr (Result × Option Json) → Bool
  | .error (.valueError _) => true
  | _ => false

-- Concrete configurations and transports used by counterexamples and
-- witnesses.

/-- A configuration with a valid key and the source's default placeholders. -/
def cfgW : Config :=
  { apiKey := some "xkeysib-test", senderEmail := "hello@example.com",
    senderName := "Your Company", recipientEmail := "test@example.com",
    recipientName := "Test User", recipientPhone := none }

/-- A configuration whose API key is configured empty. -/
def cfgEmptyKey : Config :=
  { cfgW with apiKey := some "" }

/-- A configuration with no API key at all. -/
def cfgNoKey : Config :=
  { cfgW with apiKey := none }

/-- A configuration with a phone number but only a placeholder sender. -/
def cfgPhone : Config :=
  { cfgW with recipientPhone := some "919876543210" }

/-- A transport answering every request with 204 No Content. -/
def stubNoContent : Transport := fun _ => .ok { status := 204, content := none }

/-- A transport answering every request with 200 and an empty senders list. -/
def stubEmptySenders : Transport :=
  fun _ => .ok { status := 200, content := some (Json.obj [("senders", Json.arr [])]) }

/-- A transport answering every request with 201 and body (id 42). -/
def stub201 : Transport :=
  fun _ => .ok { status := 201, content := some (Json.obj [("id", Json.num 42)]) }

/-- A transport answering every request with a 401 error body. -/
def stub401 : Transport :=
  fun _ => .ok { status := 401, content := some (Json.obj [("message", Json.str "Key not found")]) }

/-- A transport that raises a connect error on every request. -/
def stubRaise : Transport :=
  fun _ => .error (.exc "ConnectError" "connection refused")

/-- The first entry of the `to` array of a payload (`to[0]`). -/
def toFirst (p : Json) : Json :=
  match p.getKey "to" with
  | some (.arr (x :: _)) => x
  | _ => Json.null

-- Theorems.

/-- Every request `runStep` issues targets the URL it was given. -/
theorem runStep_requests_url (cfg : Config) (t : Transport) (m : Method) (u : String)
    (q : List (String × Json)) (b : Option Json) :
    ∀ r ∈ (runStep cfg t m u q b).requests, r.url = u := by
  unfold runStep
  split
  · simp
  · split <;> simp [mkRequest]

/-- Every request `_get_first_sender` issues targets the senders endpoint. -/
theorem firstSender_requests_url (cfg : Config) (t : Transport) :
    ∀ r ∈ (_get_first_sender cfg t).1, r.url = BASE_URL ++ "/v3/senders" := by
  unfold _get_first_sender
  split
  · simp
  · split <;> simp [mkRequest]

/-- Claim C2: for every HTTP response handed back by the transport, the
Result `get_account` produces has `success = true` exactly when the status is
in the 2xx range, its `status` is the response status, and its `body` is the
empty mapping whenever the response has no content. -/
theorem result_success_iff_2xx (cfg : Config) (hs : List (String × String)) (resp : Response)
    (hhead : get_headers cfg = .ok hs) :
    ∀ r rv, (get_account cfg (fun _ => .ok resp)).outcome = .ok (r, rv) →
      ((r.success = true) ↔ (200 ≤ resp.status ∧ resp.status < 300))
      ∧ r.status = resp.status
      ∧ (resp.content = none → r.body = Json.obj []) := by
  intro r rv h
  unfold get_account runStep at h
  rw [hhead] at h
  simp only [Except.ok.injEq, Prod.mk.injEq] at h
  obtain ⟨hr, hrv⟩ := h
  subst hr
  refine ⟨?_, rfl, ?_⟩
  · simp [mkResult, Response.is_success]
  · intro hc
    simp [mkResult, parseBody, hc]

/-- Witness for C2 at the spec's concrete instance: an empty body with a 2xx
status yields `success = true` and the empty mapping. -/
theorem result_success_iff_2xx_witness :
    (((mkResult { status := 204, content := none }).success = true)
        ↔ (200 ≤ (204 : Nat) ∧ (204 : Nat) < 300))
      ∧ (mkResult { status := 204, content := none }).status = 204
      ∧ ((none : Option Json) = none → (mkResult { status := 204, content := none }).body = Json.obj []) :=
  result_success_iff_2xx cfgW
    [("accept", "application/json"), ("content-type", "application/json"),
     ("api-key", "xkeysib-test")]
    { status := 204, content := none } rfl
    (mkResult { status := 204, content := none })
    (retValue { status := 204, content := none }) rfl

/-- Claim C3: a non-2xx (4xx/5xx) response raises nothing — the call returns
normally with a `success = false` Result carrying the status and the error
body, and the function's Python return value is the ordinary value `None`. -/
theorem non2xx_in_band (cfg : Config) (hs : List (String × String)) (resp : Response)
    (hhead : get_headers cfg = .ok hs) (hstatus : 400 ≤ resp.status) :
    (get_account cfg (fun _ => .ok resp)).outcome
      = .ok ({ success := false, status := resp.status, body := parseBody resp }, none) := by
  have hsucc : resp.is_success = false := by
    simp only [Response.is_success, decide_eq_false_iff_not]
    omega
  unfold get_account runStep
  rw [hhead]
  simp [mkResult, retValue, hsucc]

/-- Witness for C3 at a concrete 401 response. -/
theorem non2xx_in_band_witness :
    (get_account cfgW (fun _ => .ok { status := 401, content := some (Json.obj [("message", Json.str "Key not found")]) })).outcome
      = .ok ({ success := false, status := 401,
               body := parseBody { status := 401, content := some (Json.obj [("message", Json.str "Key not found")]) } },
             none) :=
  non2xx_in_band cfgW
    [("accept", "application/json"), ("content-type", "application/json"),
     ("api-key", "xkeysib-test")]
    { status := 401, content := some (Json.obj [("message", Json.str "Key not found")]) }
    rfl (by decide)

/-- Claim C6: creating a contact with email a@example.com and no list ids
against a stub answering 201 with body (id 42) returns the Result
(success, 201, (id 42)) together with the parsed body, and the single request
sent to /v3/contacts carries no `listIds` key. -/
theorem create_contact_scenario :
    (create_contact cfgW stub201 "a@example.com" none none false).outcome
      = .ok ({ success := true, status := 201, body := Json.obj [("id", Json.num 42)] },
             some (Json.obj [("id", Json.num 42)]))
    ∧ (create_contact cfgW stub201 "a@example.com" none none false).requests.map
        (fun r => (r.body.getD Json.null).hasKey "listIds") = [false]
    ∧ (create_contact cfgW stub201 "a@example.com" none none false).requests.map Request.url
        = [BASE_URL ++ "/v3/contacts"] :=
  ⟨rfl, rfl, rfl⟩

/-- Claim C7: for every recipient, name, subject and content, the payload the
HTML send-email operation constructs has `to[0].email` equal to the given
recipient, `subject` equal to the given subject, and `htmlContent` equal to
the given content. -/
theorem email_payload_roundtrip (cfg : Config)
    (to_email to_name subject html_content : String)
    (sender_email sender_name : Option String) :
    (toFirst (sendEmailHtmlPayload cfg to_email to_name subject html_content sender_email sender_name)).getKey "email"
        = some (Json.str to_email)
    ∧ (sendEmailHtmlPayload cfg to_email to_name subject html_content sender_email sender_name).getKey "subject"
        = some (Json.str subject)
    ∧ (sendEmailHtmlPayload cfg to_email to_name subject html_content sender_email sender_name).getKey "htmlContent"
        = some (Json.str html_content)
    ∧ (∀ t, (send_transactional_email_html cfg t to_email to_name subject html_content sender_email sender_name).requests.map Request.body
        = (runStep cfg t .POST (BASE_URL ++ "/v3/smtp/email") []
            (some (sendEmailHtmlPayload cfg to_email to_name subject html_content sender_email sender_name))).requests.map Request.body) := by
  refine ⟨rfl, rfl, rfl, fun t => rfl⟩

/-- The attempted catalogue of `run_all` is a function of the gating inputs
alone (skip flag, sender resolution, phone configuration); no step outcome
appears in it. -/
theorem stepNames_runAll (cfg : Config) (t : Transport) (skip : Bool) :
    stepNames (run_all cfg t skip)
      = expectedSteps skip (sender_tuple cfg t).isSome (phoneTruthy cfg) := by
  rcases h : sender_tuple cfg t with _ | ⟨se, sn⟩ <;>
    cases hp : phoneTruthy cfg <;> cases skip <;>
    simp [run_all, expectedSteps, stepNames, emailBlock, smsBlock, _safe_run, h, hp]

/-- Claim C1: whatever the transport does — succeed, reject, or raise any
exception at any step — the list of steps `run_all` attempts is exactly the
catalogue determined by the gating inputs.  Each step's outcome (including
every caught exception, recorded in its trace event by `_safe_run`) has no
influence on which later steps run: a failing step never prevents any
subsequent step from being attempted. -/
theorem runner_attempts_all_steps (cfg : Config) (t : Transport) (skip : Bool) :
    stepNames (run_all cfg t skip)
      = expectedSteps skip (sender_tuple cfg t).isSome (phoneTruthy cfg) :=
  stepNames_runAll cfg t skip

/-- A `runStep` aimed at a non-SMS URL contributes nothing to the SMS filter. -/
theorem filter_sms_runStep (cfg : Config) (t : Transport) (m : Method) (u : String)
    (q : List (String × Json)) (b : Option Json)
    (h : (u == BASE_URL ++ "/v3/transactionalSMS/send") = false) :
    (runStep cfg t m u q b).requests.filter
      (fun r => r.url == BASE_URL ++ "/v3/transactionalSMS/send") = [] := by
  rw [List.filter_eq_nil_iff]
  intro r hr
  have hu := runStep_requests_url cfg t m u q b r hr
  simp only [hu, h, Bool.false_eq_true, not_false_eq_true]

/-- The sender lookup contributes nothing to the SMS filter. -/
theorem filter_sms_firstSender (cfg : Config) (t : Transport) :
    (_get_first_sender cfg t).1.filter
      (fun r => r.url == BASE_URL ++ "/v3/transactionalSMS/send") = [] := by
  rw [List.filter_eq_nil_iff]
  intro r hr
  have hu := firstSender_requests_url cfg t r hr
  simp only [hu]
  decide

/-- Counterexample to claim C5 as stated: with destructive steps enabled, a
configured phone number, only a placeholder sender email and a remote account
with no verified senders, no sender identity is resolvable — yet the runner
still attempts the SMS send and issues its network call.  The SMS send is
gated on the phone number alone, not on a resolvable sender identity. -/
theorem sms_runs_without_sender_identity :
    sender_tuple cfgPhone stubEmptySenders = none
    ∧ "Send SMS" ∈ stepNames (run_all cfgPhone stubEmptySenders false)
    ∧ (smsRequests (run_all cfgPhone stubEmptySenders false)).length = 1 := by
  refine ⟨rfl, ?_, rfl⟩
  decide

/-- Claim C5 (amended): the email sends run exactly when `skip_destructive`
is false and a sender identity is resolvable; the SMS send runs exactly when
`skip_destructive` is false and a recipient phone is configured (with no
requirement on the sender identity); and with no phone configured and
`skip_destructive = false` the runner skips the SMS step, logs the hint, and
issues zero network calls to the SMS endpoint. -/
theorem destructive_gating (cfg : Config) (t : Transport) (skip : Bool) :
    (("Send Email (HTML)" ∈ stepNames (run_all cfg t skip))
        ↔ (skip = false ∧ (sender_tuple cfg t).isSome = true))
    ∧ (("Send SMS" ∈ stepNames (run_all cfg t skip))
        ↔ (skip = false ∧ phoneTruthy cfg = true))
    ∧ (skip = false → phoneTruthy cfg = false →
        "Send SMS" ∉ stepNames (run_all cfg t skip)
        ∧ Event.log smsHintMsg ∈ run_all cfg t skip
        ∧ smsRequests (run_all cfg t skip) = []) := by
  refine ⟨?_, ?_, ?_⟩
  · rw [stepNames_runAll]
    cases h : (sender_tuple cfg t).isSome <;> cases hp : phoneTruthy cfg <;>
      cases skip <;> simp [expectedSteps]
  · rw [stepNames_runAll]
    cases h : (sender_tuple cfg t).isSome <;> cases hp : phoneTruthy cfg <;>
      cases skip <;> simp [expectedSteps]
  · intro hskip hphone
    subst hskip
    refine ⟨?_, ?_, ?_⟩
    · rw [stepNames_runAll, hphone]
      cases h : (sender_tuple cfg t).isSome <;> simp [expectedSteps]
    · simp [run_all, smsBlock, hphone]
    · rcases hs : sender_tuple cfg t with _ | ⟨se, sn⟩ <;>
        simp only [run_all, emailBlock, smsBlock, hphone, hs, _safe_run,
          Bool.false_eq_true, if_false, smsRequests, allRequests,
          get_account, get_contacts_list, get_contact_lists, get_senders,
          get_webhooks, get_smtp_templates, send_transactional_email_html,
          send_transactional_email_text, send_transactional_email_dynamic,
          send_transactional_email_with_tags,
          List.map_append, List.map_cons, List.map_nil, eventRequests,
          List.flatten_append, List.flatten_cons, List.flatten_nil,
          List.filter_append, List.filter_nil, List.append_nil, List.nil_append,
          List.append_eq_nil] <;>
        (repeat' apply And.intro) <;>
        first
          | exact filter_sms_firstSender cfg t
          | exact filter_sms_runStep cfg t _ _ _ _ (by decide)

/-- Witness for C5 at a concrete configuration with no phone number. -/
theorem destructive_gating_witness :
    ("Send SMS" ∉ stepNames (run_all cfgW stubNoContent false))
    ∧ Event.log smsHintMsg ∈ run_all cfgW stubNoContent false
    ∧ smsRequests (run_all cfgW stubNoContent false) = [] :=
  (destructive_gating cfgW stubNoContent false).2.2 rfl rfl

/-- Unfolding equation for `runStep` once the headers are resolved. -/
theorem runStep_ok_headers (cfg : Config) (t : Transport) (m : Method) (u : String)
    (q : List (String × Json)) (b : Option Json) (hs : List (String × String))
    (hhead : get_headers cfg = .ok hs) :
    runStep cfg t m u q b
      = match t (mkRequest hs m u q b) with
        | .error e => { requests := [mkRequest hs m u q b], outcome := .error e }
        | .ok resp => { requests := [mkRequest hs m u q b],
                        outcome := .ok (mkResult resp, retValue resp) } := by
  unfold runStep
  rw [hhead]

/-- Unfolding equation for `track_event` once a key is present. -/
theorem track_event_some (cfg : Config) (t : Transport) (em ev : String)
    (p ed : Option Json) (k : String) (hk : cfg.apiKey = some k) :
    track_event cfg t em ev p ed
      = match t (trackRequest k em ev p ed) with
        | .error e => { requests := [trackRequest k em ev p ed], outcome := .error e }
        | .ok resp => { requests := [trackRequest k em ev p ed],
                        outcome := .ok (mkResult resp, retValue resp) } := by
  unfold track_event
  rw [hk]

/-- A missing or empty API key makes `get_headers` raise the `ValueError`. -/
theorem get_headers_bad (cfg : Config) (hbad : cfg.apiKey = none ∨ cfg.apiKey = some "") :
    get_headers cfg = .error (.valueError hdrErrMsg) := by
  rcases hbad with h | h <;> simp [get_headers, h]

/-- With a missing or empty API key, `runStep` raises before any I/O. -/
theorem runStep_bad_key (cfg : Config) (t : Transport) (m : Method) (u : String)
    (q : List (String × Json)) (b : Option Json)
    (hbad : cfg.apiKey = none ∨ cfg.apiKey = some "") :
    runStep cfg t m u q b = { requests := [], outcome := .error (.valueError hdrErrMsg) } := by
  unfold runStep
  rw [get_headers_bad cfg hbad]

/-- Counterexample to claim C4 as stated: `track_event` performs no
credential check.  With the API key configured as the empty string — a
credential that is absent/empty in the claim's sense, and on which
`get_headers` would raise — `track_event` issues its network call (one
request, to the tracking URL) and completes without any `ValueError`. -/
theorem track_event_skips_credential_check :
    (track_event cfgEmptyKey stubNoContent "a@example.com" "purchase" none none).requests.map Request.url
      = [trackUrl]
    ∧ (track_event cfgEmptyKey stubNoContent "a@example.com" "purchase" none none).outcome
      = .ok ({ success := true, status := 204, body := Json.obj [] }, some (Json.obj [])) :=
  ⟨rfl, rfl⟩

/-- Claim C4 (amended): every use-case call that authenticates through
`get_headers` — every operation except `track_event` — fails with the
configuration `ValueError` and issues zero network calls when the API key is
absent or empty.  `track_event` checks nothing: with an empty-string key it
issues its call (see the counterexample), and with no key at all it fails
before any I/O with the `TypeError` httpx raises for a `None` header value,
not with a `ValueError`. -/
theorem config_error_before_network (cfg : Config) (t : Transport)
    (hbad : cfg.apiKey = none ∨ cfg.apiKey = some "") :
    (∀ m u q b, (runStep cfg t m u q b).requests = []
        ∧ errIsValueError (runStep cfg t m u q b).outcome = true)
    ∧ ((get_account cfg t).requests = []
        ∧ errIsValueError (get_account cfg t).outcome = true)
    ∧ (∀ email attrs lids ue, (create_contact cfg t email attrs lids ue).requests = []
        ∧ errIsValueError (create_contact cfg t email attrs lids ue).outcome = true)
    ∧ (∀ recp c snd tg, (send_transactional_sms cfg t recp c snd tg).requests = []
        ∧ errIsValueError (send_transactional_sms cfg t recp c snd tg).outcome = true)
    ∧ (∀ lid emails ids, (add_contact_to_list cfg t lid emails ids).requests = []
        ∧ errIsValueError (add_contact_to_list cfg t lid emails ids).outcome = true)
    ∧ (cfg.apiKey = none →
        ∀ em ev p ed, (track_event cfg t em ev p ed).requests = []
          ∧ (track_event cfg t em ev p ed).outcome = .error .typeError) := by
  refine ⟨?_, ?_, ?_, ?_, ?_, ?_⟩
  · intro m u q b
    rw [runStep_bad_key cfg t m u q b hbad]
    exact ⟨rfl, rfl⟩
  · unfold get_account
    rw [runStep_bad_key _ _ _ _ _ _ hbad]
    exact ⟨rfl, rfl⟩
  · intro email attrs lids ue
    unfold create_contact
    rw [runStep_bad_key _ _ _ _ _ _ hbad]
    exact ⟨rfl, rfl⟩
  · intro recp c snd tg
    unfold send_transactional_sms
    rw [runStep_bad_key _ _ _ _ _ _ hbad]
    exact ⟨rfl, rfl⟩
  · intro lid emails ids
    unfold add_contact_to_list
    split
    · exact ⟨rfl, rfl⟩
    · rw [runStep_bad_key _ _ _ _ _ _ hbad]
      exact ⟨rfl, rfl⟩
  · intro hnone em ev p ed
    unfold track_event
    rw [hnone]
    exact ⟨rfl, rfl⟩

/-- Witness for the amended C4 with no API key configured. -/
theorem config_error_before_network_witness :
    (get_account cfgNoKey stubNoContent).requests = []
    ∧ errIsValueError (get_account cfgNoKey stubNoContent).outcome = true :=
  (config_error_before_network cfgNoKey stubNoContent (Or.inl rfl)).2.1

/-- Claim C8: with headers resolved, `runStep` — the HTTP step every use-case
function funnels through — issues exactly one network call (no retry), that
call carries the fixed 15 time-unit timeout, and the response body is parsed
as JSON only when non-empty, an empty content yielding the empty mapping.
`track_event`, the one step not using `get_headers`, behaves the same once
its key is present. -/
theorem executor_single_call (cfg : Config) (t : Transport) (m : Method) (u : String)
    (q : List (String × Json)) (b : Option Json) (hs : List (String × String))
    (hhead : get_headers cfg = .ok hs) :
    (runStep cfg t m u q b).requests = [mkRequest hs m u q b]
    ∧ (mkRequest hs m u q b).timeout = HTTPX_TIMEOUT
    ∧ HTTPX_TIMEOUT = 15
    ∧ (∀ resp, t (mkRequest hs m u q b) = .ok resp →
        (runStep cfg t m u q b).outcome = .ok (mkResult resp, retValue resp)
        ∧ (mkResult resp).body
            = (match resp.content with | none => Json.obj [] | some j => j))
    ∧ (∀ k em ev p ed, cfg.apiKey = some k →
        (track_event cfg t em ev p ed).requests = [trackRequest k em ev p ed]
        ∧ (trackRequest k em ev p ed).timeout = HTTPX_TIMEOUT) := by
  refine ⟨?_, rfl, rfl, ?_, ?_⟩
  · rw [runStep_ok_headers cfg t m u q b hs hhead]
    split <;> rfl
  · intro resp hresp
    rw [runStep_ok_headers cfg t m u q b hs hhead, hresp]
    exact ⟨rfl, rfl⟩
  · intro k em ev p ed hk
    rw [track_event_some cfg t em ev p ed k hk]
    refine ⟨?_, rfl⟩
    split <;> rfl

/-- Witness for C8 at the account endpoint with a concrete 204 response. -/
theorem executor_single_call_witness :
    (runStep cfgW stubNoContent .GET (BASE_URL ++ "/v3/account") [] none).requests
      = [mkRequest [("accept", "application/json"), ("content-type", "application/json"),
                    ("api-key", "xkeysib-test")] .GET (BASE_URL ++ "/v3/account") [] none]
    ∧ HTTPX_TIMEOUT = 15 :=
  ⟨(executor_single_call cfgW stubNoContent .GET (BASE_URL ++ "/v3/account") [] none
      [("accept", "application/json"), ("content-type", "application/json"),
       ("api-key", "xkeysib-test")] rfl).1,
   (executor_single_call cfgW stubNoContent .GET (BASE_URL ++ "/v3/account") [] none
      [("accept", "application/json"), ("content-type", "application/json"),
       ("api-key", "xkeysib-test")] rfl).2.2.1⟩

/-- Claim C9: with a configured key, `get_headers` yields exactly the three
standard headers, every request issued through `runStep` carries exactly
those three headers, and the event-tracking call targets the distinct
tracking host with the minimal header set (content type and API key only). -/
theorem headers_exact (cfg : Config) (k : String)
    (hk : cfg.apiKey = some k) (hne : k ≠ "") :
    get_headers cfg = .ok [("accept", "application/json"),
                           ("content-type", "application/json"), ("api-key", k)]
    ∧ (∀ t m u q b, (runStep cfg t m u q b).requests.map Request.headers
        = [[("accept", "application/json"), ("content-type", "application/json"),
            ("api-key", k)]])
    ∧ (∀ t em ev p ed, (track_event cfg t em ev p ed).requests.map Request.headers
          = [[("Content-Type", "application/json"), ("api-key", k)]]
        ∧ (track_event cfg t em ev p ed).requests.map Request.url = [trackUrl])
    ∧ BASE_URL = "https://api.brevo.com"
    ∧ trackUrl = "https://in-automate.brevo.com/api/v2/trackEvent" := by
  have h1 : get_headers cfg = .ok [("accept", "application/json"),
      ("content-type", "application/json"), ("api-key", k)] := by
    simp [get_headers, hk, hne]
  refine ⟨h1, ?_, ?_, rfl, rfl⟩
  · intro t m u q b
    rw [runStep_ok_headers cfg t m u q b _ h1]
    split <;> rfl
  · intro t em ev p ed
    rw [track_event_some cfg t em ev p ed k hk]
    constructor <;> (split <;> rfl)

/-- Witness for C9 at a concrete configuration. -/
theorem headers_exact_witness :
    get_headers cfgW = .ok [("accept", "application/json"),
                            ("content-type", "application/json"),
                            ("api-key", "xkeysib-test")]
    ∧ BASE_URL = "https://api.brevo.com" :=
  ⟨(headers_exact cfgW "xkeysib-test" rfl (by decide)).1,
   (headers_exact cfgW "xkeysib-test" rfl (by decide)).2.2.2.1⟩

/-- Claim C10: with both `emails` and `ids` absent or empty,
`add_contact_to_list` raises the `ValueError` with zero network calls (before
`get_headers` is even consulted); with exactly one of them non-empty, the
request body contains only that one key. -/
theorem add_contact_validation (cfg : Config) (t : Transport) (lid : Int) :
    add_contact_to_list cfg t lid none none
      = { requests := [], outcome := .error (.valueError "Provide emails or ids") }
    ∧ add_contact_to_list cfg t lid (some []) none
      = { requests := [], outcome := .error (.valueError "Provide emails or ids") }
    ∧ add_contact_to_list cfg t lid none (some [])
      = { requests := [], outcome := .error (.valueError "Provide emails or ids") }
    ∧ add_contact_to_list cfg t lid (some []) (some [])
      = { requests := [], outcome := .error (.valueError "Provide emails or ids") }
    ∧ (∀ e es ids hs, listTruthy ids = false → get_headers cfg = .ok hs →
        (add_contact_to_list cfg t lid (some (e :: es)) ids).requests.map Request.body
          = [some (Json.obj [("emails", Json.arr ((e :: es).map Json.str))])])
    ∧ (∀ i is emails hs, listTruthy emails = false → get_headers cfg = .ok hs →
        (add_contact_to_list cfg t lid emails (some (i :: is))).requests.map Request.body
          = [some (Json.obj [("ids", Json.arr ((i :: is).map Json.num))])]) := by
  refine ⟨rfl, rfl, rfl, rfl, ?_, ?_⟩
  · intro e es ids hs hids hhead
    have hp : addPayload (some (e :: es)) ids
        = [("emails", Json.arr ((e :: es).map Json.str))] := by
      unfold addPayload
      rw [hids]
      simp [listTruthy]
    unfold add_contact_to_list
    rw [hp, if_neg (by simp), runStep_ok_headers cfg t _ _ _ _ hs hhead]
    split <;> rfl
  · intro i is emails hs hemails hhead
    have hp : addPayload emails (some (i :: is))
        = [("ids", Json.arr ((i :: is).map Json.num))] := by
      unfold addPayload
      rw [hemails]
      simp [listTruthy]
    unfold add_contact_to_list
    rw [hp, if_neg (by simp), runStep_ok_headers cfg t _ _ _ _ hs hhead]
    split <;> rfl

/-- Witness for C10 at concrete inputs. -/
theorem add_contact_validation_witness :
    add_contact_to_list cfgW stubNoContent 7 none none
      = { requests := [], outcome := .error (.valueError "Provide emails or ids") }
    ∧ (add_contact_to_list cfgW stubNoContent 7 (some ["a@example.com"]) none).requests.map Request.body
      = [some (Json.obj [("emails", Json.arr [Json.str "a@example.com"])])] :=
  ⟨(add_contact_validation cfgW stubNoContent 7).1,
   (add_contact_validation cfgW stubNoContent 7).2.2.2.2.1 "a@example.com" [] none
     [("accept", "application/json"), ("content-type", "application/json"),
      ("api-key", "xkeysib-test")] rfl rfl⟩

end Brevo
